import Mathlib

/-!
Verification development for the kupaldownloader record-transfer tool.

The tool talks to a ZKTeco biometric terminal through the external zk
library, downloads user and fingerprint-template records, writes them to a
timestamped JSON file, and can push records back to the device.  The
development below embeds the data model and the core operations of
kupaldownloader.py (download_raw_data, save_as_json, upload_data_back,
get_device_info, and the CLI driver main) as executable Lean definitions
and proves the documented transfer properties about them.

Python values read from or written to JSON files are modelled by the
inductive type Json; the device collaborator is modelled by the record
collections it serves plus a boolean acceptance function for template
writes; the filesystem is an association list from path to file content.
-/

/-- Values of the structured-text (JSON) persistence format, as handled by
the json module: null, strings, numbers, arrays and objects (dicts with
string keys, insertion ordered). -/
inductive Json where
  | null : Json
  | str : String → Json
  | num : Int → Json
  | arr : List Json → Json
  | obj : List (String × Json) → Json

/-- Python subscript item[k] on a JSON value: returns the value stored under
key k of an object, and none (a KeyError or TypeError in Python) when the
key is absent or the value is not an object. -/
def Json.getKey : Json → String → Option Json
  | Json.obj fields, k => fields.lookup k
  | _, _ => none

/-- One user record as returned by conn.get_users() of the zk library. -/
structure UserRec where
  uid : Nat
  user_id : String
  name : String
  privilege : Nat
  password : String
  group_id : String
deriving DecidableEq, Repr

/-- One fingerprint template as returned by conn.get_templates(): owning
uid, finger index fid, size, validity flag and the opaque payload. -/
structure TemplateRec where
  uid : Nat
  fid : Nat
  size : Nat
  valid : Nat
  template : List Nat
deriving DecidableEq, Repr

/-- The device collaborator as seen by download_raw_data: the user list
served by conn.get_users() and the template list served by
conn.get_templates(). -/
structure Device where
  users : List UserRec
  templates : List TemplateRec
deriving DecidableEq, Repr

/-- One entry of a user_data fingerprints list built by download_raw_data:
the fid, size, valid and template fields of a matching template (the uid is
dropped). -/
structure FingerEntry where
  fid : Nat
  size : Nat
  valid : Nat
  template : List Nat
deriving DecidableEq, Repr

/-- A user_data dictionary built by download_raw_data: the six user fields
plus the fingerprints list. -/
structure UserData where
  uid : Nat
  user_id : String
  name : String
  privilege : Nat
  password : String
  group_id : String
  fingerprints : List FingerEntry
deriving DecidableEq, Repr

/-- The dictionary appended to user_data fingerprints for one matching
template in download_raw_data. -/
def mkFingerEntry (t : TemplateRec) : FingerEntry :=
  ⟨t.fid, t.size, t.valid, t.template⟩

/-- A list call made against the device connection. -/
inductive DevCall where
  | getUsers : DevCall
  | getTemplates : DevCall
deriving DecidableEq, Repr

/-- Body of the per-user loop of download_raw_data: builds the user_data
record for one user, attaching every template whose uid matches, and emits
the one conn.get_templates() call that the loop body performs on every
iteration. -/
def downloadStep (dev : Device) (u : UserRec) : UserData × DevCall :=
  (⟨u.uid, u.user_id, u.name, u.privilege, u.password, u.group_id,
    (dev.templates.filter (fun t => t.uid == u.uid)).map mkFingerEntry⟩,
   DevCall.getTemplates)

/-- The record list returned by download_raw_data: one user_data record per
user, in user-list order. -/
def download_raw_data (dev : Device) : List UserData :=
  (dev.users.map (downloadStep dev)).map Prod.fst

/-- The sequence of device list calls issued by download_raw_data: one
conn.get_users() call up front, then the calls emitted by the loop body,
one per user. -/
def download_calls (dev : Device) : List DevCall :=
  DevCall.getUsers :: (dev.users.map (downloadStep dev)).map Prod.snd

/-- The output record that download_raw_data builds for a given user. -/
def recordFor (dev : Device) (u : UserRec) : UserData :=
  (downloadStep dev u).fst

/-- Concrete users for the three-user scenario. -/
def demoU1 : UserRec := ⟨1, "101", "Ana", 0, "", "1"⟩

def demoU2 : UserRec := ⟨2, "102", "Ben", 0, "", "1"⟩

def demoU3 : UserRec := ⟨3, "103", "Cora", 0, "", "1"⟩

/-- Concrete templates for the three-user scenario: two for uid 1, one for
uid 2, none for uid 3. -/
def demoT10 : TemplateRec := ⟨1, 0, 3, 1, [7, 7, 7]⟩

def demoT11 : TemplateRec := ⟨1, 1, 2, 1, [8, 8]⟩

def demoT20 : TemplateRec := ⟨2, 0, 1, 1, [9]⟩

/-- The scenario device: users with uid 1, 2, 3 and templates
(uid 1, fid 0), (uid 1, fid 1), (uid 2, fid 0). -/
def demoDev : Device :=
  ⟨[demoU1, demoU2, demoU3], [demoT10, demoT11, demoT20]⟩

/-- C1: download_raw_data join correctness.  The output is one record per
user in order; the record built for a user u holds exactly the entries of
the templates whose uid equals u.uid, so a user with no matching template
gets an empty fingerprints list, and no record ever holds the entry of a
template whose uid differs from its own user's uid. -/
theorem download_raw_data_join (dev : Device) :
    download_raw_data dev = dev.users.map (recordFor dev) ∧
    (∀ u : UserRec, u ∈ dev.users → ∀ e : FingerEntry,
      (e ∈ (recordFor dev u).fingerprints ↔
        ∃ t : TemplateRec, t ∈ dev.templates ∧ t.uid = u.uid ∧ e = mkFingerEntry t)) ∧
    (∀ u : UserRec, u ∈ dev.users →
      (∀ t : TemplateRec, t ∈ dev.templates → t.uid ≠ u.uid) →
      (recordFor dev u).fingerprints = []) := by
  refine ⟨?_, ?_, ?_⟩
  · simp [download_raw_data, recordFor, List.map_map, Function.comp]
  · intro u _ e
    simp only [recordFor, downloadStep, List.mem_map, List.mem_filter, beq_iff_eq]
    constructor
    · rintro ⟨t, ⟨ht, huid⟩, rfl⟩
      exact ⟨t, ht, huid, rfl⟩
    · rintro ⟨t, ht, huid, rfl⟩
      exact ⟨t, ⟨ht, huid⟩, rfl⟩
  · intro u _ hnone
    simp only [recordFor, downloadStep]
    have : dev.templates.filter (fun t => t.uid == u.uid) = [] := by
      simp only [List.filter_eq_nil_iff, beq_iff_eq]
      exact fun t ht => hnone t ht
    simp [this]

/-- C1 witness: in the three-user scenario, user 1's record carries exactly
the entries of the two uid-1 templates and user 3's record has an empty
fingerprints list. -/
theorem download_raw_data_join_witness :
    (∀ e : FingerEntry,
      (e ∈ (recordFor demoDev demoU1).fingerprints ↔
        ∃ t : TemplateRec, t ∈ demoDev.templates ∧ t.uid = demoU1.uid ∧ e = mkFingerEntry t)) ∧
    (recordFor demoDev demoU3).fingerprints = [] ∧
    (recordFor demoDev demoU1).fingerprints = [mkFingerEntry demoT10, mkFingerEntry demoT11] :=
  ⟨fun e => (download_raw_data_join demoDev).2.1 demoU1 (by decide) e,
   (download_raw_data_join demoDev).2.2 demoU3 (by decide) (by decide),
   by decide⟩

/-- C6 counterexample: on a device with two users, download_raw_data issues
get_templates twice (once inside every loop iteration), so the total number
of device list calls is three, not the two the claim states, and the
template list is not fetched exactly once. -/
theorem download_calls_counterexample :
    download_calls ⟨[demoU1, demoU2], []⟩ =
      [DevCall.getUsers, DevCall.getTemplates, DevCall.getTemplates] ∧
    (download_calls ⟨[demoU1, demoU2], []⟩).length ≠ 2 ∧
    (download_calls ⟨[demoU1, demoU2], []⟩).count DevCall.getTemplates ≠ 1 := by
  refine ⟨by decide, by decide, by decide⟩

/-- C6 amended: download_raw_data fetches the user list exactly once and
fetches the full template list once per user (so N get_templates calls for
N users), filtering the fetched list in memory to build each user's join. -/
theorem download_calls_amended (dev : Device) :
    (download_calls dev).count DevCall.getUsers = 1 ∧
    (download_calls dev).count DevCall.getTemplates = dev.users.length := by
  constructor
  · simp [download_calls, downloadStep, List.map_map, List.count_cons,
      List.count_eq_zero, Function.comp]
  · simp [download_calls, downloadStep, List.map_map, List.count_cons, Function.comp]
    rw [List.count_eq_length.mpr]
    · simp
    · intro b hb
      simp only [List.mem_map, Function.comp] at hb
      obtain ⟨u, _, rfl⟩ := hb
      rfl

/-- Result of an upload batch: the successful set_user_template calls, in
order, as (user_id, finger_id, template) argument triples, and the user_id
values logged by the per-record failure handler, in order. -/
structure UploadResult where
  writes : List (Json × Json × Json)
  failures : List Json

/-- Outcome of the per-record body of upload_data_back. -/
inductive ItemOutcome where
  | wrote : Json → Json → Json → ItemOutcome
  | logged : Json → ItemOutcome
  | fatal : ItemOutcome

/-- Per-record body of upload_data_back: evaluate the three subscripts
item at user_id, finger_id and template, call conn.set_user_template with
them, and on any exception run the handler, which logs item at user_id.  A
subscript failure inside the handler itself (no user_id key) escapes the
inner try and aborts the batch, which is ItemOutcome.fatal.  When the
arguments were all read, the handler rereads the user_id key, which is
still present, so a rejected device write is logged with that user_id. -/
def uploadItem (wOk : Json → Json → Json → Bool) (item : Json) : ItemOutcome :=
  match item.getKey "user_id", item.getKey "finger_id", item.getKey "template" with
  | some u, some f, some t =>
      if wOk u f t then ItemOutcome.wrote u f t else ItemOutcome.logged u
  | _, _, _ =>
      match item.getKey "user_id" with
      | some u => ItemOutcome.logged u
      | none => ItemOutcome.fatal

/-- The record loop of upload_data_back: accumulate successful writes and
logged failures; a fatal per-record outcome propagates out of the loop as
the exception that the outer handler logs and reraises. -/
def uploadLoop (wOk : Json → Json → Json → Bool) : List Json → Except String UploadResult
  | [] => Except.ok ⟨[], []⟩
  | item :: rest =>
    match uploadItem wOk item with
    | ItemOutcome.wrote u f t =>
        (uploadLoop wOk rest).map (fun r => ⟨(u, f, t) :: r.writes, r.failures⟩)
    | ItemOutcome.logged u =>
        (uploadLoop wOk rest).map (fun r => ⟨r.writes, u :: r.failures⟩)
    | ItemOutcome.fatal => Except.error "KeyError in warning handler"

/-- upload_data_back: data.get with the fingerprints key and data itself as
the default, then the record loop.  Only dict values have a get method, so
a non-object argument (in particular a bare array) raises AttributeError,
which the outer handler logs and reraises.  When the selected fingerprints
value is a dict Python iterates its keys, and when it is a string Python
iterates its one-character substrings; a number has no len and raises
TypeError at the tqdm call. -/
def upload_data_back (wOk : Json → Json → Json → Bool) (data : Json) :
    Except String UploadResult :=
  match data with
  | Json.obj fields =>
      match (fields.lookup "fingerprints").getD (Json.obj fields) with
      | Json.arr items => uploadLoop wOk items
      | Json.obj inner => uploadLoop wOk (inner.map (fun kv => Json.str kv.fst))
      | Json.str s => uploadLoop wOk (s.data.map (fun c => Json.str (String.mk [c])))
      | _ => Except.error "TypeError: object has no len"
  | _ => Except.error "AttributeError: object has no attribute get"

/-- Value stored under a key, defaulting to null; used to phrase theorems
about records known to carry the key. -/
def keyD (item : Json) (k : String) : Json :=
  (item.getKey k).getD Json.null

/-- A record carrying the three keys that upload_data_back subscripts. -/
def wellKeyed (item : Json) : Bool :=
  (item.getKey "user_id").isSome && (item.getKey "finger_id").isSome &&
    (item.getKey "template").isSome

/-- The set_user_template argument triple of a record. -/
def tripleD (item : Json) : Json × Json × Json :=
  (keyD item "user_id", keyD item "finger_id", keyD item "template")

/-- Whether the device accepts the write attempted for a record. -/
def okRec (wOk : Json → Json → Json → Bool) (item : Json) : Bool :=
  wOk (keyD item "user_id") (keyD item "finger_id") (keyD item "template")

theorem uploadItem_wellKeyed (wOk : Json → Json → Json → Bool) (item : Json)
    (h : wellKeyed item = true) :
    uploadItem wOk item =
      if okRec wOk item then
        ItemOutcome.wrote (keyD item "user_id") (keyD item "finger_id") (keyD item "template")
      else ItemOutcome.logged (keyD item "user_id") := by
  simp only [wellKeyed, Bool.and_eq_true, Option.isSome_iff_exists] at h
  obtain ⟨⟨⟨u, hu⟩, f, hf⟩, t, ht⟩ := h
  simp [uploadItem, okRec, tripleD, keyD, hu, hf, ht]

theorem uploadLoop_wellKeyed (wOk : Json → Json → Json → Bool) (items : List Json)
    (h : ∀ r ∈ items, wellKeyed r = true) :
    uploadLoop wOk items =
      Except.ok ⟨(items.filter (okRec wOk)).map tripleD,
        (items.filter (fun r => ! okRec wOk r)).map (fun r => keyD r "user_id")⟩ := by
  induction items with
  | nil => rfl
  | cons item rest ih =>
    have hhd := uploadItem_wellKeyed wOk item (h item (by simp))
    have htl := ih (fun r hr => h r (by simp [hr]))
    by_cases hok : okRec wOk item = true
    · simp [uploadLoop, hhd, hok, htl, Except.map, tripleD]
    · simp [uploadLoop, hhd, hok, htl, Except.map]

theorem filter_length_split {α : Type} (p : α → Bool) (l : List α) :
    (l.filter p).length + (l.filter (fun a => ! p a)).length = l.length := by
  induction l with
  | nil => rfl
  | cons a l ih =>
    by_cases h : p a = true <;> simp [List.filter_cons, h] <;> omega

/-- The five getter calls that get_device_info makes on the connection,
each of which can raise. -/
structure DeviceInfoSource where
  firmware_version : Except String String
  serial_number : Except String String
  platform : Except String String
  device_name : Except String String
  user_count : Except String Nat

/-- get_device_info: the whole dict literal is built inside one try, so the
result is the complete five-field dict when every getter succeeds, and the
handler returns the empty dict as soon as any getter raises. -/
def get_device_info (c : DeviceInfoSource) : List (String × Json) :=
  match c.firmware_version, c.serial_number, c.platform, c.device_name, c.user_count with
  | Except.ok fw, Except.ok sn, Except.ok pf, Except.ok dn, Except.ok uc =>
      [("firmware_version", Json.str fw), ("serial_number", Json.str sn),
       ("platform", Json.str pf), ("device_name", Json.str dn),
       ("total_users", Json.num (Int.ofNat uc))]
  | _, _, _, _, _ => []

/-- Whether a getter call succeeded. -/
def exOk {α : Type} : Except String α → Bool
  | Except.ok _ => true
  | Except.error _ => false

/-- All five device-info getters succeed. -/
def allInfoOk (c : DeviceInfoSource) : Bool :=
  exOk c.firmware_version && exOk c.serial_number && exOk c.platform &&
    exOk c.device_name && exOk c.user_count

/-- The complete device-info dict, read off the successful getter values. -/
def fullInfo (c : DeviceInfoSource) : List (String × Json) :=
  [("firmware_version", Json.str (c.firmware_version.toOption.getD "")),
   ("serial_number", Json.str (c.serial_number.toOption.getD "")),
   ("platform", Json.str (c.platform.toOption.getD "")),
   ("device_name", Json.str (c.device_name.toOption.getD "")),
   ("total_users", Json.num (Int.ofNat (c.user_count.toOption.getD 0)))]

/-- An info source whose firmware read succeeds but whose serial-number read
raises. -/
def demoInfoConn : DeviceInfoSource :=
  ⟨Except.ok "Ver 6.60", Except.error "timeout", Except.ok "ZMM200",
   Except.ok "K14", Except.ok 25⟩

/-- C8 counterexample: with a successful firmware read and a failing
serial-number read, get_device_info returns the empty dict, so the
successfully read firmware_version field is discarded instead of being kept
in a partial mapping. -/
theorem get_device_info_counterexample :
    get_device_info demoInfoConn = [] ∧
    ("firmware_version", Json.str "Ver 6.60") ∉ get_device_info demoInfoConn :=
  ⟨rfl, by simp [demoInfoConn, get_device_info]⟩

/-- C8 amended: get_device_info never raises; it returns the complete
five-field mapping when every getter succeeds and the empty mapping as soon
as any getter fails, discarding fields already read. -/
theorem get_device_info_amended (c : DeviceInfoSource) :
    get_device_info c = if allInfoOk c then fullInfo c else [] := by
  obtain ⟨f1, f2, f3, f4, f5⟩ := c
  cases f1 <;> cases f2 <;> cases f3 <;> cases f4 <;> cases f5 <;>
    simp [get_device_info, allInfoOk, exOk, fullInfo, Except.toOption]

/-- A download-style record: the six user fields plus a fingerprints list
with two entries, but no top-level finger_id or template key. -/
def c2rec : Json :=
  Json.obj [("uid", Json.num 1), ("user_id", Json.str "101"),
    ("name", Json.str "Ana"), ("privilege", Json.num 0),
    ("password", Json.str ""), ("group_id", Json.str "1"),
    ("fingerprints", Json.arr
      [Json.obj [("fid", Json.num 0), ("size", Json.num 3), ("valid", Json.num 1),
        ("template", Json.arr [Json.num 7, Json.num 7, Json.num 7])],
       Json.obj [("fid", Json.num 1), ("size", Json.num 2), ("valid", Json.num 1),
        ("template", Json.arr [Json.num 8, Json.num 8])]])]

/-- C2 counterexample: on an envelope holding one record whose fingerprints
list has two entries, upload_data_back performs zero device writes and logs
the record as a failure, although the claim demands a user write followed
by one template write per entry of the fingerprints list. -/
theorem upload_per_record_counterexample :
    upload_data_back (fun _ _ _ => true) (Json.obj [("fingerprints", Json.arr [c2rec])]) =
      Except.ok ⟨[], [Json.str "101"]⟩ ∧
    (match c2rec.getKey "fingerprints" with
      | some (Json.arr l) => l.length
      | _ => 0) = 2 :=
  ⟨rfl, rfl⟩

/-- C2 amended: for each record, upload_data_back performs exactly one
device call, a template write passing the record's top-level user_id,
finger_id and template values; it never writes the user record and never
iterates the record's fingerprints list, so records that have the three
keys and are accepted by the device yield exactly one write each, in
order. -/
theorem upload_one_write_per_record (wOk : Json → Json → Json → Bool)
    (recs : List Json)
    (hWf : ∀ r ∈ recs, wellKeyed r = true)
    (hOk : ∀ r ∈ recs, okRec wOk r = true) :
    upload_data_back wOk (Json.obj [("fingerprints", Json.arr recs)]) =
      Except.ok ⟨recs.map tripleD, []⟩ := by
  have h0 : upload_data_back wOk (Json.obj [("fingerprints", Json.arr recs)]) =
      uploadLoop wOk recs := rfl
  rw [h0, uploadLoop_wellKeyed wOk recs hWf]
  have hall : recs.filter (okRec wOk) = recs := by
    rw [List.filter_eq_self]
    exact hOk
  have hnone : recs.filter (fun r => ! okRec wOk r) = [] := by
    rw [List.filter_eq_nil_iff]
    intro r hr
    simp [hOk r hr]
  rw [hall, hnone]
  rfl

/-- A well-keyed upload record for user 101. -/
def c4rec1 : Json :=
  Json.obj [("user_id", Json.str "101"), ("finger_id", Json.num 0),
    ("template", Json.str "AA")]

/-- A well-keyed upload record for user 102. -/
def c4rec2 : Json :=
  Json.obj [("user_id", Json.str "102"), ("finger_id", Json.num 0),
    ("template", Json.str "BB")]

/-- A well-keyed upload record for user 103. -/
def c4rec3 : Json :=
  Json.obj [("user_id", Json.str "103"), ("finger_id", Json.num 0),
    ("template", Json.str "CC")]

/-- A device that rejects exactly the write whose user_id is 102. -/
def rejects102 : Json → Json → Json → Bool := fun u _ _ =>
  match u with
  | Json.str s => s != "102"
  | _ => true

/-- C2 witness: three accepted well-keyed records produce exactly one write
per record, in order, and no failures. -/
theorem upload_one_write_per_record_witness :
    upload_data_back (fun _ _ _ => true)
        (Json.obj [("fingerprints", Json.arr [c4rec1, c4rec3])]) =
      Except.ok ⟨[(Json.str "101", Json.num 0, Json.str "AA"),
        (Json.str "103", Json.num 0, Json.str "CC")], []⟩ := by
  have h := upload_one_write_per_record (fun _ _ _ => true) [c4rec1, c4rec3]
    (by decide) (by decide)
  rw [h]
  rfl

/-- C4: partial failure tolerance of upload_data_back.  If every record has
the three keys and the device write fails for exactly record k, the batch
still returns ok (never aborts), logs exactly the one failure with record
k's user_id, and performs the writes of all other records, N minus 1 of
them. -/
theorem upload_partial_failure (wOk : Json → Json → Json → Bool)
    (recs : List Json) (k : Nat) (hk : k < recs.length)
    (hWf : ∀ r ∈ recs, wellKeyed r = true)
    (hFail : recs.filter (fun r => ! okRec wOk r) = [recs.get ⟨k, hk⟩]) :
    upload_data_back wOk (Json.obj [("fingerprints", Json.arr recs)]) =
      Except.ok ⟨(recs.filter (okRec wOk)).map tripleD,
        [keyD (recs.get ⟨k, hk⟩) "user_id"]⟩ ∧
    ((recs.filter (okRec wOk)).map tripleD).length = recs.length - 1 := by
  have h0 : upload_data_back wOk (Json.obj [("fingerprints", Json.arr recs)]) =
      uploadLoop wOk recs := rfl
  constructor
  · rw [h0, uploadLoop_wellKeyed wOk recs hWf, hFail]
    rfl
  · have hsplit := filter_length_split (okRec wOk) recs
    rw [hFail] at hsplit
    simp only [List.length_map]
    simp at hsplit
    omega

/-- C4 witness: of three records the middle one is rejected; both other
writes happen, exactly one failure is logged, with user_id 102, and the
batch returns ok. -/
theorem upload_partial_failure_witness :
    upload_data_back rejects102
        (Json.obj [("fingerprints", Json.arr [c4rec1, c4rec2, c4rec3])]) =
      Except.ok ⟨[(Json.str "101", Json.num 0, Json.str "AA"),
        (Json.str "103", Json.num 0, Json.str "CC")], [Json.str "102"]⟩ ∧
    ([c4rec1, c4rec2, c4rec3].filter (okRec rejects102)).length = 2 := by
  have h := upload_partial_failure rejects102 [c4rec1, c4rec2, c4rec3] 1
    (by decide) (by decide) (by rfl)
  refine ⟨?_, ?_⟩
  · rw [h.1]
    rfl
  · have := h.2
    simpa using this

/-- A bare-array upload record carrying all three expected keys. -/
def c5rec : Json :=
  Json.obj [("user_id", Json.str "7"), ("finger_id", Json.num 0),
    ("template", Json.str "AAA")]

/-- C5: upload_data_back on a bare array raises AttributeError (Python
lists have no get method), performing no writes, while the same records
wrapped in a fingerprints envelope upload fine — the two call shapes do not
produce identical write sequences, contradicting the back-compatibility
comment in the code. -/
theorem upload_bare_array_bug :
    upload_data_back (fun _ _ _ => true) (Json.arr [c5rec]) =
      Except.error "AttributeError: object has no attribute get" ∧
    upload_data_back (fun _ _ _ => true)
        (Json.obj [("fingerprints", Json.arr [c5rec])]) =
      Except.ok ⟨[(Json.str "7", Json.num 0, Json.str "AAA")], []⟩ :=
  ⟨rfl, rfl⟩

/-- A wall-clock reading as used by datetime.now(): the six fields that the
strftime format string of save_as_json prints. -/
structure DateTime where
  year : Nat
  month : Nat
  day : Nat
  hour : Nat
  minute : Nat
  second : Nat
deriving DecidableEq, Repr

/-- Field ranges of a real datetime.now() reading (four-digit year). -/
def DateTime.valid (d : DateTime) : Bool :=
  decide (d.year ≤ 9999) && decide (1 ≤ d.month) && decide (d.month ≤ 12) &&
    decide (1 ≤ d.day) && decide (d.day ≤ 31) && decide (d.hour ≤ 23) &&
    decide (d.minute ≤ 59) && decide (d.second ≤ 59)

/-- One decimal digit character. -/
def digitChar : Nat → Char
  | 0 => '0'
  | 1 => '1'
  | 2 => '2'
  | 3 => '3'
  | 4 => '4'
  | 5 => '5'
  | 6 => '6'
  | 7 => '7'
  | 8 => '8'
  | _ => '9'

/-- Two-digit zero-padded decimal rendering, as strftime prints with the
percent m, d, H, M and S directives. -/
def pad2Chars (n : Nat) : List Char :=
  [digitChar (n / 10 % 10), digitChar (n % 10)]

/-- Four-digit zero-padded decimal rendering, as strftime prints a
four-digit year with the percent Y directive. -/
def pad4Chars (n : Nat) : List Char :=
  [digitChar (n / 1000 % 10), digitChar (n / 100 % 10),
   digitChar (n / 10 % 10), digitChar (n % 10)]

/-- The characters of strftime with format YYYYMMDD_HHMMSS. -/
def tsChars (d : DateTime) : List Char :=
  pad4Chars d.year ++ pad2Chars d.month ++ pad2Chars d.day ++ ['_'] ++
    pad2Chars d.hour ++ pad2Chars d.minute ++ pad2Chars d.second

/-- The timestamp string that save_as_json appends to the base name. -/
def strftimeTs (d : DateTime) : String :=
  String.mk (tsChars d)

theorem digitChar_inj (a b : Nat) (ha : a < 10) (hb : b < 10) :
    digitChar a = digitChar b → a = b := by
  interval_cases a <;> interval_cases b <;> decide

theorem tsChars_length (d : DateTime) : (tsChars d).length = 15 := by
  simp [tsChars, pad4Chars, pad2Chars]

theorem tsChars_inj (d1 d2 : DateTime) (h1 : d1.valid = true) (h2 : d2.valid = true)
    (he : tsChars d1 = tsChars d2) : d1 = d2 := by
  obtain ⟨y1, mo1, dy1, hr1, mi1, s1⟩ := d1
  obtain ⟨y2, mo2, dy2, hr2, mi2, s2⟩ := d2
  simp only [DateTime.valid, Bool.and_eq_true, decide_eq_true_eq] at h1 h2
  simp only [tsChars, pad4Chars, pad2Chars, List.cons_append, List.nil_append,
    List.cons.injEq, and_true] at he
  obtain ⟨e1, e2, e3, e4, e5, e6, e7, e8, -, e9, e10, e11, e12, e13, e14⟩ := he
  have m10 : (0 : Nat) < 10 := by norm_num
  have q1 := digitChar_inj _ _ (Nat.mod_lt _ m10) (Nat.mod_lt _ m10) e1
  have q2 := digitChar_inj _ _ (Nat.mod_lt _ m10) (Nat.mod_lt _ m10) e2
  have q3 := digitChar_inj _ _ (Nat.mod_lt _ m10) (Nat.mod_lt _ m10) e3
  have q4 := digitChar_inj _ _ (Nat.mod_lt _ m10) (Nat.mod_lt _ m10) e4
  have q5 := digitChar_inj _ _ (Nat.mod_lt _ m10) (Nat.mod_lt _ m10) e5
  have q6 := digitChar_inj _ _ (Nat.mod_lt _ m10) (Nat.mod_lt _ m10) e6
  have q7 := digitChar_inj _ _ (Nat.mod_lt _ m10) (Nat.mod_lt _ m10) e7
  have q8 := digitChar_inj _ _ (Nat.mod_lt _ m10) (Nat.mod_lt _ m10) e8
  have q9 := digitChar_inj _ _ (Nat.mod_lt _ m10) (Nat.mod_lt _ m10) e9
  have q10 := digitChar_inj _ _ (Nat.mod_lt _ m10) (Nat.mod_lt _ m10) e10
  have q11 := digitChar_inj _ _ (Nat.mod_lt _ m10) (Nat.mod_lt _ m10) e11
  have q12 := digitChar_inj _ _ (Nat.mod_lt _ m10) (Nat.mod_lt _ m10) e12
  have q13 := digitChar_inj _ _ (Nat.mod_lt _ m10) (Nat.mod_lt _ m10) e13
  have q14 := digitChar_inj _ _ (Nat.mod_lt _ m10) (Nat.mod_lt _ m10) e14
  simp only [DateTime.mk.injEq]
  refine ⟨?_, ?_, ?_, ?_, ?_, ?_⟩ <;> omega

/-- Python str.replace removing every occurrence of the five characters
.json, scanning left to right. -/
def stripOcc : List Char → List Char
  | '.' :: 'j' :: 's' :: 'o' :: 'n' :: rest => stripOcc rest
  | c :: rest => c :: stripOcc rest
  | [] => []

theorem stripOcc_length_mod (l : List Char) :
    (stripOcc l).length % 5 = l.length % 5 := by
  induction l using stripOcc.induct <;> simp [stripOcc, *] <;> omega

/-- The filename.replace call of save_as_json. -/
def stripJson (s : String) : String :=
  String.mk (stripOcc s.data)

/-- The output path formed by save_as_json: the base name with every .json
occurrence removed, an underscore, the YYYYMMDD_HHMMSS timestamp, and the
.json suffix. -/
def save_filename (filename : String) (now : DateTime) : String :=
  stripJson filename ++ "_" ++ strftimeTs now ++ ".json"

/-- save_as_json: returns the timestamped path it writes and the envelope
object it serializes there, wrapping the record list with the export date
and the record count. -/
def save_as_json (data : List Json) (filename : String) (now : DateTime)
    (nowIso : String) : String × Json :=
  (save_filename filename now,
   Json.obj [("export_date", Json.str nowIso),
     ("total_records", Json.num (Int.ofNat data.length)),
     ("fingerprints", Json.arr data)])

/-- json.load of a path against the filesystem, modelled as an association
list from path to parsed file content. -/
def json_load (fs : List (String × Json)) (path : String) : Option Json :=
  fs.lookup path

theorem save_filename_length (filename : String) (d : DateTime) :
    (save_filename filename d).length = (stripJson filename).length + 21 := by
  have h1 : ("_" : String).length = 1 := rfl
  have h2 : (".json" : String).length = 5 := rfl
  simp only [save_filename, String.length_append, strftimeTs, String.length_mk,
    tsChars_length, h1, h2]

theorem save_filename_ne (filename : String) (d : DateTime) :
    save_filename filename d ≠ filename := by
  intro h
  have hlen := save_filename_length filename d
  have hmod : (stripJson filename).length % 5 = filename.length % 5 := by
    have hs := stripOcc_length_mod filename.data
    show (String.mk (stripOcc filename.data)).length % 5 = filename.length % 5
    rw [String.length_mk]
    exact hs
  rw [h] at hlen
  omega

/-- The wall clock of the first scenario save. -/
def demoDtA : DateTime := ⟨2024, 5, 17, 10, 30, 0⟩

/-- A wall clock one second later. -/
def demoDtB : DateTime := ⟨2024, 5, 17, 10, 30, 1⟩

/-- C7: save_as_json writes to the path formed from the base name (with any
.json occurrence removed), an underscore, the YYYYMMDD_HHMMSS timestamp and
the .json suffix, and two saves whose wall-clock readings differ at second
resolution write to distinct paths, so a prior export is not overwritten. -/
theorem save_filename_format (data1 data2 : List Json) (base iso1 iso2 : String)
    (d1 d2 : DateTime) (h1 : d1.valid = true) (h2 : d2.valid = true)
    (hne : d1 ≠ d2) :
    (save_as_json data1 base d1 iso1).fst =
      stripJson base ++ "_" ++ strftimeTs d1 ++ ".json" ∧
    (save_as_json data1 base d1 iso1).fst ≠ (save_as_json data2 base d2 iso2).fst := by
  refine ⟨rfl, ?_⟩
  intro h
  apply hne
  apply tsChars_inj d1 d2 h1 h2
  have hd := congrArg String.data h
  simp only [save_as_json, save_filename, String.data_append] at hd
  have e1 : (strftimeTs d1).data = tsChars d1 := rfl
  have e2 : (strftimeTs d2).data = tsChars d2 := rfl
  rw [e1, e2] at hd
  have hc := List.append_cancel_right hd
  exact List.append_cancel_left hc

/-- C7 witness: saving under base name foo at 2024-05-17 10:30:00 yields the
path foo_20240517_103000.json, and a save one second later yields a
different path. -/
theorem save_filename_format_witness :
    (save_as_json [] "foo" demoDtA "2024-05-17T10:30:00").fst =
      "foo_20240517_103000.json" ∧
    (save_as_json [] "foo" demoDtA "e").fst ≠ (save_as_json [] "foo" demoDtB "e").fst :=
  ⟨by decide,
   (save_filename_format [] [] "foo" "e" "e" demoDtA demoDtB (by decide) (by decide)
     (by decide)).2⟩

/-- C3: round-trip.  Loading the file that save_as_json just produced
returns exactly the envelope that was written; that envelope consists of
the payload record list unchanged under the fingerprints key plus only the
two added metadata fields export_date and total_records. -/
theorem save_load_roundtrip (fs : List (String × Json)) (R : List Json)
    (base iso : String) (d : DateTime) (_hR : R ≠ []) :
    json_load (((save_as_json R base d iso).fst, (save_as_json R base d iso).snd) :: fs)
        (save_as_json R base d iso).fst = some (save_as_json R base d iso).snd ∧
    (save_as_json R base d iso).snd =
      Json.obj [("export_date", Json.str iso),
        ("total_records", Json.num (Int.ofNat R.length)),
        ("fingerprints", Json.arr R)] ∧
    Json.getKey (save_as_json R base d iso).snd "fingerprints" = some (Json.arr R) := by
  refine ⟨?_, rfl, rfl⟩
  simp [json_load, List.lookup]

/-- C3 witness: round-trip at a concrete one-record payload. -/
theorem save_load_roundtrip_witness :
    json_load [((save_as_json [Json.num 1] "foo" demoDtA "e").fst,
        (save_as_json [Json.num 1] "foo" demoDtA "e").snd)]
      (save_as_json [Json.num 1] "foo" demoDtA "e").fst =
        some (save_as_json [Json.num 1] "foo" demoDtA "e").snd ∧
    (save_as_json [Json.num 1] "foo" demoDtA "e").snd =
      Json.obj [("export_date", Json.str "e"),
        ("total_records", Json.num (Int.ofNat 1)),
        ("fingerprints", Json.arr [Json.num 1])] ∧
    Json.getKey (save_as_json [Json.num 1] "foo" demoDtA "e").snd "fingerprints" =
      some (Json.arr [Json.num 1]) :=
  save_load_roundtrip [] [Json.num 1] "foo" "e" demoDtA (by simp)

/-- The dict serialized for one fingerprints entry of a downloaded record:
the finger index is stored under the key fid. -/
def fingerEntryJson (e : FingerEntry) : Json :=
  Json.obj [("fid", Json.num (Int.ofNat e.fid)),
    ("size", Json.num (Int.ofNat e.size)),
    ("valid", Json.num (Int.ofNat e.valid)),
    ("template", Json.arr (e.template.map (fun b => Json.num (Int.ofNat b))))]

/-- The dict serialized for one downloaded user_data record. -/
def userDataJson (r : UserData) : Json :=
  Json.obj [("uid", Json.num (Int.ofNat r.uid)), ("user_id", Json.str r.user_id),
    ("name", Json.str r.name), ("privilege", Json.num (Int.ofNat r.privilege)),
    ("password", Json.str r.password), ("group_id", Json.str r.group_id),
    ("fingerprints", Json.arr (r.fingerprints.map fingerEntryJson))]

theorem uploadLoop_downloaded (wOk : Json → Json → Json → Bool) (rs : List UserData) :
    uploadLoop wOk (rs.map userDataJson) =
      Except.ok ⟨[], rs.map (fun r => Json.str r.user_id)⟩ := by
  induction rs with
  | nil => rfl
  | cons r rest ih =>
    have hitem : uploadItem wOk (userDataJson r) =
        ItemOutcome.logged (Json.str r.user_id) := rfl
    simp [uploadLoop, hitem, ih, Except.map]

/-- C9: the download and upload sides disagree on the finger-index key.
Downloaded records put the finger index under fid inside the nested
fingerprints list and have no top-level finger_id key, while
upload_data_back subscripts finger_id on each top-level record; so feeding
any saved download export back to upload_data_back performs zero device
writes and logs every record as a failure under its user_id. -/
theorem download_upload_key_mismatch (dev : Device) (wOk : Json → Json → Json → Bool)
    (base iso : String) (d : DateTime) :
    upload_data_back wOk
        (save_as_json ((download_raw_data dev).map userDataJson) base d iso).snd =
      Except.ok ⟨[], (download_raw_data dev).map (fun r => Json.str r.user_id)⟩ ∧
    (∀ r : UserData, (userDataJson r).getKey "finger_id" = none) ∧
    (∀ t : TemplateRec, (fingerEntryJson (mkFingerEntry t)).getKey "fid" =
      some (Json.num (Int.ofNat t.fid))) := by
  refine ⟨?_, fun r => rfl, fun t => rfl⟩
  have h0 : upload_data_back wOk
      (save_as_json ((download_raw_data dev).map userDataJson) base d iso).snd =
      uploadLoop wOk ((download_raw_data dev).map userDataJson) := rfl
  rw [h0, uploadLoop_downloaded]

/-- The CLI driver on action both: connect, download, save under the
timestamped name, then reopen args.file, the bare base name, and upload its
content; any exception is logged and the process exits with code 1, which
the first component of the result records (0 for a clean run).  The second
component is the final filesystem. -/
def main_both (dev : Device) (wOk : Json → Json → Json → Bool) (fileArg : String)
    (now : DateTime) (iso : String) (fs : List (String × Json)) :
    Nat × List (String × Json) :=
  let data := (download_raw_data dev).map userDataJson
  let saved := save_as_json data fileArg now iso
  let fs1 := (saved.fst, saved.snd) :: fs
  match json_load fs1 fileArg with
  | none => (1, fs1)
  | some content =>
    match upload_data_back wOk content with
    | Except.ok _ => (0, fs1)
    | Except.error _ => (1, fs1)

/-- C10: in CLI mode with action both, the file the download phase writes
is never the file the upload phase opens, because save_as_json returns a
timestamp-suffixed path while the upload phase opens the bare base path;
and when no file exists at the bare base path the run fails with exit
code 1. -/
theorem main_both_path_mismatch (dev : Device) (wOk : Json → Json → Json → Bool)
    (fileArg iso : String) (now : DateTime) (fs : List (String × Json))
    (hAbsent : fs.lookup fileArg = none) :
    save_filename fileArg now ≠ fileArg ∧
    (main_both dev wOk fileArg now iso fs).fst = 1 := by
  refine ⟨save_filename_ne fileArg now, ?_⟩
  have hbeq : (fileArg == save_filename fileArg now) = false := by
    rw [beq_eq_false_iff_ne]
    exact fun h => save_filename_ne fileArg now h.symm
  simp [main_both, json_load, List.lookup, save_as_json, hbeq, hAbsent]

/-- C10 witness: on an empty filesystem with the default base name, the
saved path differs from the base name and the run exits with code 1. -/
theorem main_both_path_mismatch_witness :
    save_filename "fingerprint_data" demoDtA ≠ "fingerprint_data" ∧
    (main_both demoDev (fun _ _ _ => true) "fingerprint_data" demoDtA "e" []).fst = 1 :=
  main_both_path_mismatch demoDev (fun _ _ _ => true) "fingerprint_data" "e" demoDtA
    [] rfl
